import Mathlib

/-!
Shallow embedding of the environment-adaptation layer of the `skrl` fork
(`src/skrl/envs/torch/wrappers.py` and
`src/skrl/envs/jax/wrappers/pettingzoo_envs.py`).

Numeric model: array elements are modelled as exact rationals (`ℚ`).
Integral dtype casts truncate toward zero, as numpy/torch casts do;
float casts are value-preserving (float32 rounding noise is outside the
model, matching the spec's "tolerance for float casts").  Fallible Python
operations (exceptions) are modelled with `Except`.
-/

/-- Element types carried by numpy arrays / torch tensors in the code. -/
inductive Dtype where
  | float32
  | float64
  | int64
  | int32
  | int8
  deriving DecidableEq, Repr

/-- Python exceptions raised by the adapted code paths. -/
inductive Err where
  | unsupportedObservationSpace (typeName : String)
  | unsupportedActionSpace (typeName : String)
  | unknownWrapper (kind : String)
  | keyError (key : String)
  | typeError
  | attributeError
  | valueError
  | runtimeError
  | stopIteration
  | recursionLimit
  deriving DecidableEq, Repr

/-- Row-major numeric array: one model for numpy arrays and torch tensors. -/
structure NDArray where
  dtype : Dtype
  shape : List Nat
  data : List ℚ
  deriving DecidableEq, Repr

abbrev Tensor := NDArray

/-- Truncation toward zero, the semantics of `int(x)` and of numpy/torch
integral casts. -/
def truncQ (q : ℚ) : ℤ := q.num / (q.den : ℤ)

/-- Whether a dtype is an integral type. -/
def Dtype.isIntLike : Dtype → Bool
  | .int64 => true
  | .int32 => true
  | .int8 => true
  | _ => false

/-- Casting one scalar to a dtype: integral dtypes truncate toward zero,
floating dtypes keep the exact value. -/
def Dtype.castElem (d : Dtype) (q : ℚ) : ℚ :=
  if d.isIntLike then ((truncQ q : ℤ) : ℚ) else q

mutual
/-- The space descriptors dispatched on by the code: `gym.spaces.Discrete`,
`gym.spaces.Box`, `gym.spaces.Dict`, and `other` for any further runtime
space type (`MultiDiscrete`, `Tuple`, ...), carrying that type's name. -/
inductive Space where
  | discrete (n : Nat)
  | box (low high : List ℚ) (shape : List Nat) (dtype : Dtype)
  | dict (fields : SpaceFields)
  | other (typeName : String)
  deriving DecidableEq, Repr
/-- Association list of named sub-spaces of a `Dict` space. -/
inductive SpaceFields where
  | nil
  | cons (name : String) (s : Space) (rest : SpaceFields)
  deriving DecidableEq, Repr
end

/-- `type(space)` as it appears in the error messages of the source. -/
def Space.typeName : Space → String
  | .discrete _ => "Discrete"
  | .box _ _ _ _ => "Box"
  | .dict _ => "Dict"
  | .other t => t

mutual
/-- Backend-native observation values: a plain Python `int`, a numpy
array, or a dict of named sub-observations. -/
inductive Obs where
  | int (v : ℤ)
  | arr (a : NDArray)
  | dict (fields : ObsFields)
  deriving DecidableEq, Repr
/-- Association list of named sub-observations. -/
inductive ObsFields where
  | nil
  | cons (name : String) (o : Obs) (rest : ObsFields)
  deriving DecidableEq, Repr
end

/-- `observation[k]`: dict lookup, first match. -/
def ObsFields.lookup : ObsFields → String → Option Obs
  | .nil, _ => none
  | .cons n o rest, k => if n = k then some o else rest.lookup k

/-- Lexicographic order on char lists by code point, the order Python uses
to compare strings. -/
def charListLtB : List Char → List Char → Bool
  | [], [] => false
  | [], _ :: _ => true
  | _ :: _, [] => false
  | a :: as, b :: bs => if a < b then true else if b < a then false else charListLtB as bs

/-- `a <= b` on strings by code point, as in Python's `sorted`. -/
def strLeB (a b : String) : Bool := !(charListLtB b.data a.data)

/-- Insert a named space into a name-sorted field list. -/
def SpaceFields.insertByName (name : String) (s : Space) : SpaceFields → SpaceFields
  | .nil => .cons name s .nil
  | .cons n2 s2 rest =>
      if strLeB name n2 then .cons name s (.cons n2 s2 rest)
      else .cons n2 s2 (insertByName name s rest)

/-- `sorted(space.keys())` traversal order: the fields sorted by name. -/
def SpaceFields.sortByName : SpaceFields → SpaceFields
  | .nil => .nil
  | .cons n s rest => (sortByName rest).insertByName n s

mutual
/-- Structural nesting depth of a space, used as the recursion budget of
the encoders (Python's recursion is bounded by this depth). -/
def Space.depth : Space → Nat
  | .dict fields => fields.depthF + 1
  | _ => 1
/-- Recursion budget needed to traverse a field list. -/
def SpaceFields.depthF : SpaceFields → Nat
  | .nil => 1
  | .cons _ s rest => 1 + s.depth + rest.depthF
end

/-- Second dimension of a rank-2 tensor (0 for others). -/
def NDArray.dim1 (t : NDArray) : Nat := (t.shape.get? 1).getD 0

/-- Row `i` of a rank-2 tensor. -/
def NDArray.rowSlice (t : NDArray) (i : Nat) : List ℚ :=
  match t.shape with
  | [_, d] => (t.data.drop (i * d)).take d
  | _ => []

/-- `torch.tensor(v, dtype=torch.int64)` on a plain Python int: a 0-dim
tensor holding the value. -/
def torchTensorOfInt (v : ℤ) : Tensor := ⟨.int64, [], [(v : ℚ)]⟩

/-- `torch.tensor(a, dtype=d)` on a numpy array: copy, cast elementwise. -/
def torchTensorOfArr (d : Dtype) (a : NDArray) : Tensor :=
  ⟨d, a.shape, a.data.map d.castElem⟩

/-- `t.view(n, -1)` on a torch tensor: reshape to `(n, numel / n)`;
raises (RuntimeError) unless the element count is divisible by `n`. -/
def torchView2 (n : Nat) (t : Tensor) : Except Err Tensor :=
  if 0 < n ∧ t.data.length % n = 0 then
    .ok ⟨t.dtype, [n, t.data.length / n], t.data⟩
  else .error .runtimeError

/-- `t.view(-1, 1)` on a torch tensor: always `(numel, 1)`. -/
def torchViewM1x1 (t : Tensor) : Tensor := ⟨t.dtype, [t.data.length, 1], t.data⟩

/-- `a.reshape(n, -1)` on a numpy array: reshape to `(n, size / n)`;
raises ValueError unless the size is divisible by `n`. -/
def npReshape2 (n : Nat) (a : NDArray) : Except Err NDArray :=
  if 0 < n ∧ a.data.length % n = 0 then
    .ok ⟨a.dtype, [n, a.data.length / n], a.data⟩
  else .error .valueError

/-- `a.astype(d)`: elementwise cast to dtype `d`. -/
def NDArray.astype (a : NDArray) (d : Dtype) : NDArray :=
  ⟨d, a.shape, a.data.map d.castElem⟩

/-- `cat(parts, dim/axis=-1)` on rank-2 tensors of equal leading dimension
and dtype (the only configuration produced by the encoders): concatenate
row-wise.  An empty part list or mismatched parts raise. -/
def catLastAxis (parts : List Tensor) : Except Err Tensor :=
  match parts with
  | [] => .error .valueError
  | t :: _ =>
    match t.shape with
    | [n, _] =>
        if parts.all (fun p => p.shape = [n, p.dim1] ∧ p.dtype = t.dtype) then
          .ok ⟨t.dtype, [n, (parts.map NDArray.dim1).sum],
               ((List.range n).map (fun i => (parts.map (fun p => p.rowSlice i)).flatten)).flatten⟩
        else .error .valueError
    | _ => .error .valueError

/-- `np.stack(xs, axis=0)` over backend observations: equal-shaped arrays
stack to a new leading axis; plain ints stack to a 1-d array; anything
else (dicts become object arrays whose later float cast fails) raises. -/
def npStackObs (xs : List Obs) : Except Err NDArray :=
  match xs with
  | [] => .error .valueError
  | Obs.arr a :: rest =>
      if rest.all (fun o => match o with
          | Obs.arr b => b.shape = a.shape ∧ b.dtype = a.dtype
          | _ => false) then
        .ok ⟨a.dtype, xs.length :: a.shape,
             (xs.map (fun o => match o with | Obs.arr b => b.data | _ => [])).flatten⟩
      else .error .valueError
  | Obs.int _ :: rest =>
      if rest.all (fun o => match o with | Obs.int _ => true | _ => false) then
        .ok ⟨.int64, [xs.length],
             (xs.map (fun o => match o with | Obs.int v => [(v : ℚ)] | _ => [])).flatten⟩
      else .error .valueError
  | Obs.dict _ :: _ => .error .typeError

/-- `True` exactly on `Except.ok`. -/
def Except.isOkB {ε α : Type} : Except ε α → Bool
  | .ok _ => true
  | .error _ => false

/-- Scalar or array action value handed back to the backend by the
action decoders (`.item()` yields a plain scalar, Box yields an array). -/
inductive ActionVal where
  | intScalar (v : ℤ)
  | floatScalar (x : ℚ)
  | arrv (a : NDArray)
  deriving DecidableEq, Repr

/-- `t.item()`: the single element of a one-element tensor, as a plain
Python scalar (int for integral dtypes, float otherwise); raises on any
other element count. -/
def NDArray.itemScalar (t : Tensor) : Except Err ActionVal :=
  match t.data with
  | [x] => .ok (if t.dtype.isIntLike then .intScalar (truncQ x) else .floatScalar x)
  | _ => .error .runtimeError

mutual
/-- `GymWrapper._observation_to_tensor` (src/skrl/envs/torch/wrappers.py,
lines 189-205).  Dispatch order is the source's: plain-int observation,
ndarray observation, then the space's type (Discrete, Box, Dict, other).
`fuel` bounds the recursion depth of the model; every branch below is
reached with any positive fuel, and `fuel = space.depth` always suffices. -/
def GymWrapper.observationToTensor (numEnvs : Nat) : Nat → Obs → Space → Except Err Tensor
  | 0, _, _ => .error .recursionLimit
  | _ + 1, .int v, _ => torchView2 numEnvs (torchTensorOfInt v)
  | _ + 1, .arr a, _ => torchView2 numEnvs (torchTensorOfArr .float32 a)
  | _ + 1, .dict _, .discrete _ => .error .typeError
  | _ + 1, .dict _, .box _ _ _ _ => .error .typeError
  | fuel + 1, .dict fobs, .dict fields => do
      let parts ← GymWrapper.observationFieldsToTensor numEnvs fuel fobs fields.sortByName
      let c ← catLastAxis parts
      torchView2 numEnvs c
  | _ + 1, .dict _, .other t => .error (.unsupportedObservationSpace t)
/-- The Dict branch of `GymWrapper._observation_to_tensor`: encode
`observation[k]` against `space[k]` for `k in sorted(space.keys())`. -/
def GymWrapper.observationFieldsToTensor (numEnvs : Nat) :
    Nat → ObsFields → SpaceFields → Except Err (List Tensor)
  | 0, _, _ => .error .recursionLimit
  | _ + 1, _, .nil => .ok []
  | fuel + 1, fobs, .cons k sp rest => do
      let ov ← match fobs.lookup k with
        | some o => Except.ok o
        | none => Except.error (Err.keyError k)
      let t ← GymWrapper.observationToTensor numEnvs fuel ov sp
      let ts ← GymWrapper.observationFieldsToTensor numEnvs fuel fobs rest
      Except.ok (t :: ts)
end

/-- `GymWrapper._observation_to_tensor` with its recursion budget set to
the space's depth (enough for every input). -/
def GymWrapper.encode (numEnvs : Nat) (o : Obs) (s : Space) : Except Err Tensor :=
  GymWrapper.observationToTensor numEnvs s.depth o s

/-- `GymWrapper._tensor_to_action` (src/skrl/envs/torch/wrappers.py,
lines 218-225): Discrete reduces via `.item()`, Box casts to the space's
dtype and reshapes to the space's native shape, anything else raises a
ValueError naming the space's runtime type. -/
def GymWrapper.tensorToAction (space : Space) (actions : Tensor) : Except Err ActionVal :=
  match space with
  | .discrete _ => actions.itemScalar
  | .box _ _ shape dtype =>
      if actions.data.length = shape.prod then
        .ok (.arrv ⟨dtype, shape, actions.data.map dtype.castElem⟩)
      else .error .valueError
  | s => .error (.unsupportedActionSpace s.typeName)

/-- The capability surface `wrap_env` inspects on an opaque environment:
`isinstance(env, gym.core.Env | gym.core.Wrapper)`, and whether the
class's bases mention `dm_env._environment.Environment` or
`rlgpu.tasks.base.vec_task.VecTask`. -/
structure EnvClassInfo where
  isGymInstance : Bool
  basesHaveDmEnv : Bool
  basesHaveVecTask : Bool
  deriving DecidableEq, Repr

/-- The adapter variants `wrap_env` can return. -/
inductive WrapperKind where
  | gym
  | deepmind
  | isaacgymPreview2
  | isaacgymPreview3
  deriving DecidableEq, Repr

/-- `wrap_env` (src/skrl/envs/torch/wrappers.py, lines 409-453): `"auto"`
tries Gym, then DeepMind, then Isaac Gym preview 2, and otherwise falls
through to Isaac Gym preview 3; explicit kinds map directly, and an
unknown explicit kind raises a ValueError naming it. -/
def wrapEnv (env : EnvClassInfo) (wrapper : String) : Except Err WrapperKind :=
  if wrapper = "auto" then
    if env.isGymInstance then .ok .gym
    else if env.basesHaveDmEnv then .ok .deepmind
    else if env.basesHaveVecTask then .ok .isaacgymPreview2
    else .ok .isaacgymPreview3
  else if wrapper = "gym" then .ok .gym
  else if wrapper = "dm" then .ok .deepmind
  else if wrapper = "isaacgym-preview2" then .ok .isaacgymPreview2
  else if wrapper = "isaacgym-preview3" then .ok .isaacgymPreview3
  else .error (.unknownWrapper wrapper)

/-- `Wrapper.num_envs` (src/skrl/envs/torch/wrappers.py, lines 57-63):
the backend's `num_envs` attribute if it has one, else 1. -/
def Wrapper.numEnvs (numEnvsAttr : Option Nat) : Nat :=
  match numEnvsAttr with
  | some n => n
  | none => 1

/-- Backend model for the Isaac Gym preview 2 adapter: optional
`num_envs` attribute, the observation buffer its native reset returns,
and its native step function. -/
structure IG2Env where
  numEnvsAttr : Option Nat
  resetResult : Tensor
  stepFn : Tensor → Tensor × Tensor × Tensor

/-- Isaac Gym preview 2 adapter state: the wrapped env plus the one-shot
reset flag `_reset_once` and buffer `_obs_buf`. -/
structure IG2Adapter where
  env : IG2Env
  resetOnce : Bool
  obsBuf : Option Tensor

/-- `IsaacGymPreview2Wrapper.__init__`: `_reset_once = True`,
`_obs_buf = None`. -/
def IsaacGymPreview2Wrapper.init (env : IG2Env) : IG2Adapter := ⟨env, true, none⟩

/-- `num_envs` of the preview 2 adapter (inherited from `Wrapper`). -/
def IG2Adapter.numEnvs (a : IG2Adapter) : Nat := Wrapper.numEnvs a.env.numEnvsAttr

/-- `IsaacGymPreview2Wrapper.reset` (lines 111-120): on the first call,
invoke the backend's native reset once and cache its observation; on
later calls return the cached buffer.  The third component counts the
native reset invocations this call performed. -/
def IsaacGymPreview2Wrapper.reset (a : IG2Adapter) : IG2Adapter × Option Tensor × Nat :=
  if a.resetOnce then
    (⟨a.env, false, some a.env.resetResult⟩, some a.env.resetResult, 1)
  else (a, a.obsBuf, 0)

/-- `IsaacGymPreview2Wrapper.step` (lines 99-109): call the backend,
store the new observation buffer, reshape reward and reset flags to
`(-1, 1)`. -/
def IsaacGymPreview2Wrapper.step (a : IG2Adapter) (actions : Tensor) :
    IG2Adapter × Tensor × Tensor × Tensor :=
  let (obs, rew, rst) := a.env.stepFn actions
  (⟨a.env, a.resetOnce, some obs⟩, obs, torchViewM1x1 rew, torchViewM1x1 rst)

/-- Backend model for the Isaac Gym preview 3 adapter: its native reset
returns a dictionary of buffers. -/
structure IG3Env where
  numEnvsAttr : Option Nat
  resetResult : List (String × Tensor)
  stepFn : Tensor → List (String × Tensor) × Tensor × Tensor

/-- Isaac Gym preview 3 adapter state (`_reset_once`, `_obs_dict`). -/
structure IG3Adapter where
  env : IG3Env
  resetOnce : Bool
  obsDict : Option (List (String × Tensor))

/-- `IsaacGymPreview3Wrapper.__init__`: `_reset_once = True`,
`_obs_dict = None`. -/
def IsaacGymPreview3Wrapper.init (env : IG3Env) : IG3Adapter := ⟨env, true, none⟩

/-- `self._obs_dict["obs"]`: dict lookup, raising KeyError when absent
and TypeError when the buffer is still `None`. -/
def IG3Adapter.obsOf : Option (List (String × Tensor)) → Except Err Tensor
  | none => .error .typeError
  | some d =>
      match d.lookup "obs" with
      | some t => .ok t
      | none => .error (.keyError "obs")

/-- `IsaacGymPreview3Wrapper.reset` (lines 152-161): one-shot reset over
a dictionary buffer, returning its `"obs"` entry. -/
def IsaacGymPreview3Wrapper.reset (a : IG3Adapter) :
    IG3Adapter × Except Err Tensor × Nat :=
  if a.resetOnce then
    (⟨a.env, false, some a.env.resetResult⟩, IG3Adapter.obsOf (some a.env.resetResult), 1)
  else (a, IG3Adapter.obsOf a.obsDict, 0)

mutual
/-- `PettingZooWrapper._observation_to_tensor`
(src/skrl/envs/jax/wrappers/pettingzoo_envs.py, lines 64-88).  Same
dispatch order as the torch version, with numpy semantics: on a plain
int (line 76) and in the Dict branch (line 85) the source calls
`ndarray.view(num_envs, -1)`, which in numpy is the dtype-reinterpreting
`view(dtype, type)` and raises TypeError on these arguments; the ndarray
branch (line 78) uses `reshape` and works.  `fuel` bounds the model's
recursion depth; every branch is reached with any positive fuel. -/
def PettingZooWrapper.observationToTensor (numEnvs : Nat) : Nat → Obs → Space → Except Err Tensor
  | 0, _, _ => .error .recursionLimit
  | _ + 1, .int _, _ => .error .typeError
  | _ + 1, .arr a, _ => (npReshape2 numEnvs a).map (fun r => r.astype .float32)
  | _ + 1, .dict _, .discrete _ => .error .typeError
  | _ + 1, .dict _, .box _ _ _ _ => .error .attributeError
  | fuel + 1, .dict fobs, .dict fields =>
      match PettingZooWrapper.observationFieldsToTensor numEnvs fuel fobs fields.sortByName with
      | .error e => .error e
      | .ok parts =>
        match catLastAxis parts with
        | .error e => .error e
        | .ok _ => .error .typeError
  | _ + 1, .dict _, .other t => .error (.unsupportedObservationSpace t)
/-- The Dict traversal of `PettingZooWrapper._observation_to_tensor`:
encode `observation[k]` against `space[k]` for `k in sorted(space.keys())`. -/
def PettingZooWrapper.observationFieldsToTensor (numEnvs : Nat) :
    Nat → ObsFields → SpaceFields → Except Err (List Tensor)
  | 0, _, _ => .error .recursionLimit
  | _ + 1, _, .nil => .ok []
  | fuel + 1, fobs, .cons k sp rest => do
      let ov ← match fobs.lookup k with
        | some o => Except.ok o
        | none => Except.error (Err.keyError k)
      let t ← PettingZooWrapper.observationToTensor numEnvs fuel ov sp
      let ts ← PettingZooWrapper.observationFieldsToTensor numEnvs fuel fobs rest
      Except.ok (t :: ts)
end

/-- `PettingZooWrapper._observation_to_tensor` with its recursion budget
set to the space's depth (enough for every input). -/
def PettingZooWrapper.encode (numEnvs : Nat) (o : Obs) (s : Space) : Except Err Tensor :=
  PettingZooWrapper.observationToTensor numEnvs s.depth o s

/-- `PettingZooWrapper._tensor_to_action` (lines 90-105): same policy as
the torch version (`.item()` for Discrete, `astype`+`reshape` for Box,
ValueError naming the runtime type otherwise). -/
def PettingZooWrapper.tensorToAction (actions : Tensor) (space : Space) : Except Err ActionVal :=
  match space with
  | .discrete _ => actions.itemScalar
  | .box _ _ shape dtype =>
      if actions.data.length = shape.prod then
        .ok (.arrv ⟨dtype, shape, actions.data.map dtype.castElem⟩)
      else .error .valueError
  | s => .error (.unsupportedActionSpace s.typeName)

/-- An entry of a PettingZoo `infos` mapping: upstream content (opaque
tags / per-agent empty dicts) or the injected `"shared_states"` map. -/
inductive InfoVal where
  | emptyMap
  | tag (s : String)
  | sharedStates (m : List (String × Tensor))
  deriving DecidableEq, Repr

/-- Raw result of the backend's native `step`. -/
structure PZStepOut where
  observations : List (String × Obs)
  rewards : List (String × ℚ)
  terminated : List (String × Bool)
  truncated : List (String × Bool)
  infos : List (String × InfoVal)

/-- Raw result of the backend's native `reset`: either a bare observation
mapping or an `(observations, infos)` pair. -/
inductive PZResetOut where
  | obsOnly (observations : List (String × Obs))
  | withInfos (observations : List (String × Obs)) (infos : List (String × InfoVal))

/-- Backend model for the PettingZoo (parallel) adapter. -/
structure PZEnv where
  possibleAgents : List String
  observationSpacesAttr : List (String × Space)
  observationSpaceFn : List (String × Space)
  actionSpaceFn : List (String × Space)
  numEnvsAttr : Option Nat
  stepFn : List (String × ActionVal) → PZStepOut
  resetFn : PZResetOut

/-- The PettingZoo adapter after construction: the wrapped env, the
frozen `possible_agents`, the precomputed `_shared_observation_space`,
and `num_envs`. -/
structure PZWrapper where
  env : PZEnv
  possibleAgents : List String
  sharedObservationSpace : Space
  numEnvs : Nat

/-- `PettingZooWrapper._compute_shared_observation_space` (lines 24-30):
take the FIRST space of the backend's `observation_spaces` mapping
(`next(iter(...))` raises StopIteration when empty), read its `low`,
`high`, `shape`, `dtype` (AttributeError when it is not a Box), and build
a Box whose shape prepends the possible-agent count, with `low`/`high`
stacked once per possible agent (`np.stack` of an empty list raises).
No comparison between different agents' spaces is performed. -/
def PettingZooWrapper.computeSharedObservationSpace
    (possibleAgents : List String) (observationSpaces : List (String × Space)) :
    Except Err Space :=
  match observationSpaces with
  | [] => .error .stopIteration
  | (_, sp) :: _ =>
    match sp with
    | .box low high shape dtype =>
        if possibleAgents.isEmpty then .error .valueError
        else .ok (.box ((List.replicate possibleAgents.length low).flatten)
                       ((List.replicate possibleAgents.length high).flatten)
                       (possibleAgents.length :: shape) dtype)
    | _ => .error .attributeError

/-- `PettingZooWrapper.__init__` (lines 13-22): record the backend's
`possible_agents` and compute the shared observation space from the
backend's `observation_spaces` attribute.  `num_envs` comes from the
`MultiAgentEnvWrapper` base class, which is not under src/; Modelled
from the spec: it is the backend's `num_envs` attribute when exposed,
else 1 (same policy as the torch `Wrapper.num_envs` in src/). -/
def PettingZooWrapper.init (env : PZEnv) : Except Err PZWrapper :=
  match PettingZooWrapper.computeSharedObservationSpace env.possibleAgents env.observationSpacesAttr with
  | .error e => .error e
  | .ok shared => .ok ⟨env, env.possibleAgents, shared, Wrapper.numEnvs env.numEnvsAttr⟩

/-- Assoc-list lookup that raises KeyError when the key is absent, as the
PettingZoo `observation_space(uid)` / `action_space(uid)` accessors and
`observations[uid]` indexing do. -/
def lookupE {α : Type} (m : List (String × α)) (k : String) : Except Err α :=
  match m.lookup k with
  | some v => .ok v
  | none => .error (.keyError k)

/-- Python dict assignment `m[k] = v`: replace the first binding of `k`
in place, or append a new binding at the end. -/
def setKey {α : Type} : List (String × α) → String → α → List (String × α)
  | [], k, v => [(k, v)]
  | (k2, v2) :: rest, k, v =>
      if k2 = k then (k, v) :: rest else (k2, v2) :: setKey rest k v

/-- The action-decoding dict comprehension at the start of
`PettingZooWrapper.step` (line 121): for each submitted agent action,
decode it against `self._env.action_space(uid)`.  (`jax.device_get` on
the way in is value-preserving and elided.) -/
def PettingZooWrapper.decodeActions (env : PZEnv) :
    List (String × Tensor) → Except Err (List (String × ActionVal))
  | [] => .ok []
  | (uid, act) :: rest => do
      let sp ← lookupE env.actionSpaceFn uid
      let a ← PettingZooWrapper.tensorToAction act sp
      let as ← PettingZooWrapper.decodeActions env rest
      Except.ok ((uid, a) :: as)

/-- `[observations[uid] for uid in self.possible_agents]`: index the raw
observation of every possible agent in order; a missing agent raises
KeyError. -/
def gatherAgentObs (observations : List (String × Obs)) :
    List String → Except Err (List Obs)
  | [] => .ok []
  | uid :: rest => do
      let o ← lookupE observations uid
      let os ← gatherAgentObs observations rest
      Except.ok (o :: os)

/-- The shared-observation synthesis of `step`/`reset` (lines 124-126 and
149-151): stack every possible agent's raw observation and encode the
stack through the shared observation space. -/
def PettingZooWrapper.buildShared (w : PZWrapper)
    (observations : List (String × Obs)) : Except Err Tensor := do
  let os ← gatherAgentObs observations w.possibleAgents
  let stacked ← npStackObs os
  PettingZooWrapper.encode w.numEnvs (.arr stacked) w.sharedObservationSpace

/-- The observation-conversion dict comprehension of `step`/`reset`
(lines 130 and 155): encode each returned agent observation against
`self._env.observation_space(uid)`. -/
def PettingZooWrapper.convertObservations (w : PZWrapper) :
    List (String × Obs) → Except Err (List (String × Tensor))
  | [] => .ok []
  | (uid, o) :: rest => do
      let sp ← lookupE w.env.observationSpaceFn uid
      let t ← PettingZooWrapper.encode w.numEnvs o sp
      let ts ← PettingZooWrapper.convertObservations w rest
      Except.ok ((uid, t) :: ts)

/-- `np.array(value, dtype=np.float32).reshape(self.num_envs, -1)` over
the per-agent rewards (line 131). -/
def PettingZooWrapper.convertRewards (w : PZWrapper) :
    List (String × ℚ) → Except Err (List (String × Tensor))
  | [] => .ok []
  | (uid, x) :: rest => do
      let t ← npReshape2 w.numEnvs ⟨.float32, [], [x]⟩
      let ts ← PettingZooWrapper.convertRewards w rest
      Except.ok ((uid, t) :: ts)

/-- `np.array(value, dtype=np.int8).reshape(self.num_envs, -1)` over the
per-agent terminated/truncated flags (lines 132-133). -/
def PettingZooWrapper.convertFlags (w : PZWrapper) :
    List (String × Bool) → Except Err (List (String × Tensor))
  | [] => .ok []
  | (uid, b) :: rest => do
      let t ← npReshape2 w.numEnvs ⟨.int8, [], [if b then 1 else 0]⟩
      let ts ← PettingZooWrapper.convertFlags w rest
      Except.ok ((uid, t) :: ts)

/-- Converted result of `PettingZooWrapper.step`. -/
structure PZStepRes where
  observations : List (String × Tensor)
  rewards : List (String × Tensor)
  terminated : List (String × Tensor)
  truncated : List (String × Tensor)
  infos : List (String × InfoVal)

/-- `PettingZooWrapper.step` (lines 107-134): decode the actions, call
the backend, synthesize the shared observation and inject it into
`infos["shared_states"]` keyed by every possible agent, then convert
observations, rewards and flags. -/
def PettingZooWrapper.step (w : PZWrapper) (actions : List (String × Tensor)) :
    Except Err PZStepRes := do
  let decoded ← PettingZooWrapper.decodeActions w.env actions
  let out := w.env.stepFn decoded
  let shared ← PettingZooWrapper.buildShared w out.observations
  let infos2 := setKey out.infos "shared_states"
      (InfoVal.sharedStates (w.possibleAgents.map (fun uid => (uid, shared))))
  let obs2 ← PettingZooWrapper.convertObservations w out.observations
  let rew2 ← PettingZooWrapper.convertRewards w out.rewards
  let term2 ← PettingZooWrapper.convertFlags w out.terminated
  let trunc2 ← PettingZooWrapper.convertFlags w out.truncated
  Except.ok ⟨obs2, rew2, term2, trunc2, infos2⟩

/-- The observation mapping the backend's native `reset` produced. -/
def PZEnv.resetRawObservations (env : PZEnv) : List (String × Obs) :=
  match env.resetFn with
  | .obsOnly obs => obs
  | .withInfos obs _ => obs

/-- `PettingZooWrapper.reset` (lines 136-156): read the backend's reset
output (synthesizing per-agent empty infos when it is a bare mapping),
synthesize the shared observation, inject `infos["shared_states"]` keyed
by every possible agent, and convert the observations. -/
def PettingZooWrapper.reset (w : PZWrapper) :
    Except Err (List (String × Tensor) × List (String × InfoVal)) := do
  let observations := w.env.resetRawObservations
  let infos := match w.env.resetFn with
    | .obsOnly _ => w.possibleAgents.map (fun uid => (uid, InfoVal.emptyMap))
    | .withInfos _ infos0 => infos0
  let shared ← PettingZooWrapper.buildShared w observations
  let infos2 := setKey infos "shared_states"
      (InfoVal.sharedStates (w.possibleAgents.map (fun uid => (uid, shared))))
  let obs2 ← PettingZooWrapper.convertObservations w observations
  Except.ok (obs2, infos2)

/-- Heterogeneous two-agent backend: agent `A` has a `Box` observation
space of shape `(3,)`, agent `B` one of shape `(5,)`. -/
def envHet : PZEnv where
  possibleAgents := ["A", "B"]
  observationSpacesAttr :=
    [("A", .box [0, 0, 0] [1, 1, 1] [3] .float32),
     ("B", .box [0, 0, 0, 0, 0] [1, 1, 1, 1, 1] [5] .float32)]
  observationSpaceFn :=
    [("A", .box [0, 0, 0] [1, 1, 1] [3] .float32),
     ("B", .box [0, 0, 0, 0, 0] [1, 1, 1, 1, 1] [5] .float32)]
  actionSpaceFn := [("A", .discrete 2), ("B", .discrete 2)]
  numEnvsAttr := none
  stepFn := fun _ => ⟨[], [], [], [], []⟩
  resetFn := .obsOnly []

/-- Homogeneous two-agent backend whose step/reset report both agents. -/
def envDuo : PZEnv where
  possibleAgents := ["A", "B"]
  observationSpacesAttr :=
    [("A", .box [0, 0, 0] [1, 1, 1] [3] .float32),
     ("B", .box [0, 0, 0] [1, 1, 1] [3] .float32)]
  observationSpaceFn :=
    [("A", .box [0, 0, 0] [1, 1, 1] [3] .float32),
     ("B", .box [0, 0, 0] [1, 1, 1] [3] .float32)]
  actionSpaceFn := [("A", .discrete 2), ("B", .discrete 2)]
  numEnvsAttr := none
  stepFn := fun _ =>
    ⟨[("A", .arr ⟨.float32, [3], [1, 2, 3]⟩), ("B", .arr ⟨.float32, [3], [4, 5, 6]⟩)],
     [("A", 1), ("B", 0)],
     [("A", false), ("B", false)],
     [("A", false), ("B", false)],
     [("A", .emptyMap), ("B", .emptyMap)]⟩
  resetFn := .obsOnly
    [("A", .arr ⟨.float32, [3], [1, 2, 3]⟩), ("B", .arr ⟨.float32, [3], [4, 5, 6]⟩)]

/-- The adapter built over `envDuo`. -/
def wDuo : PZWrapper :=
  match PettingZooWrapper.init envDuo with
  | .ok w => w
  | .error _ => ⟨envDuo, [], .discrete 0, 1⟩

/-- Homogeneous two-agent backend whose step/reset report only agent
`A`, leaving possible agent `B` absent from the observation mapping. -/
def envMiss : PZEnv where
  possibleAgents := ["A", "B"]
  observationSpacesAttr :=
    [("A", .box [0, 0, 0] [1, 1, 1] [3] .float32),
     ("B", .box [0, 0, 0] [1, 1, 1] [3] .float32)]
  observationSpaceFn :=
    [("A", .box [0, 0, 0] [1, 1, 1] [3] .float32),
     ("B", .box [0, 0, 0] [1, 1, 1] [3] .float32)]
  actionSpaceFn := [("A", .discrete 2), ("B", .discrete 2)]
  numEnvsAttr := none
  stepFn := fun _ =>
    ⟨[("A", .arr ⟨.float32, [3], [1, 2, 3]⟩)],
     [("A", 1)], [("A", false)], [("A", false)], [("A", .emptyMap)]⟩
  resetFn := .obsOnly [("A", .arr ⟨.float32, [3], [1, 2, 3]⟩)]

/-- The adapter built over `envMiss`. -/
def wMiss : PZWrapper :=
  match PettingZooWrapper.init envMiss with
  | .ok w => w
  | .error _ => ⟨envMiss, [], .discrete 0, 1⟩

@[simp]
theorem exceptBind_ok {ε α β : Type} (a : α) (f : α → Except ε β) :
    (Except.ok a >>= f) = f a := rfl

@[simp]
theorem exceptBind_error {ε α β : Type} (e : ε) (f : α → Except ε β) :
    ((Except.error e : Except ε α) >>= f) = Except.error e := rfl

theorem truncQ_intCast (v : ℤ) : truncQ ((v : ℤ) : ℚ) = v := by
  simp [truncQ]

theorem listMapSelf {α : Type} (f : α → α) :
    ∀ l : List α, (∀ x ∈ l, f x = x) → l.map f = l := by
  intro l h
  induction l with
  | nil => rfl
  | cons a as ih =>
      simp only [List.map_cons, h a (by simp)]
      rw [ih (fun x hx => h x (by simp [hx]))]

theorem lookup_setKey {α : Type} (m : List (String × α)) (k : String) (v : α) :
    (setKey m k v).lookup k = some v := by
  induction m with
  | nil => simp [setKey, List.lookup]
  | cons p rest ih =>
      rcases p with ⟨k2, v2⟩
      by_cases h : k2 = k
      · simp [setKey, h, List.lookup]
      · have h2 : (k == k2) = false := by
          simpa [beq_eq_false_iff_ne] using Ne.symm h
        simp [setKey, h, List.lookup, h2, ih]

/-- C2: counterexample.  `wrap_env` in auto mode, applied to an opaque
environment whose capability surface matches no adapter variant, silently
returns the Isaac Gym preview 3 adapter instead of failing with an
unknown-environment-kind error. -/
theorem C2_counterexample :
    wrapEnv ⟨false, false, false⟩ "auto" = .ok .isaacgymPreview3 := rfl

/-- C2 (amended): in auto mode the selector never fails — it tests the
capability sets in a fixed priority order (gym, DeepMind, Isaac Gym
preview 2) and silently falls back to the Isaac Gym preview 3 adapter
when none matches; only an explicit wrapper kind outside the supported
set fails, with an error naming the requested kind. -/
theorem C2_amended (env : EnvClassInfo) (w : String)
    (hw : w ∉ ["auto", "gym", "dm", "isaacgym-preview2", "isaacgym-preview3"]) :
    (∃ k, wrapEnv env "auto" = .ok k)
    ∧ (env.isGymInstance = false → env.basesHaveDmEnv = false →
        env.basesHaveVecTask = false → wrapEnv env "auto" = .ok .isaacgymPreview3)
    ∧ wrapEnv env w = .error (.unknownWrapper w) := by
  obtain ⟨g, d, v⟩ := env
  refine ⟨?_, ?_, ?_⟩
  · cases g <;> cases d <;> cases v <;> exact ⟨_, rfl⟩
  · cases g <;> cases d <;> cases v <;> simp [wrapEnv]
  · have h1 : ¬(w = "auto") := fun h => hw (by simp [h])
    have h2 : ¬(w = "gym") := fun h => hw (by simp [h])
    have h3 : ¬(w = "dm") := fun h => hw (by simp [h])
    have h4 : ¬(w = "isaacgym-preview2") := fun h => hw (by simp [h])
    have h5 : ¬(w = "isaacgym-preview3") := fun h => hw (by simp [h])
    simp [wrapEnv, h1, h2, h3, h4, h5]

/-- C2 witness: the amended statement at a concrete capability-less
environment and a concrete unknown explicit kind. -/
theorem C2_amended_witness :
    ("unknown-kind" ∉ ["auto", "gym", "dm", "isaacgym-preview2", "isaacgym-preview3"])
    ∧ ((∃ k, wrapEnv ⟨false, false, false⟩ "auto" = .ok k)
       ∧ (false = false → false = false → false = false →
           wrapEnv ⟨false, false, false⟩ "auto" = .ok .isaacgymPreview3)
       ∧ wrapEnv ⟨false, false, false⟩ "unknown-kind"
           = .error (.unknownWrapper "unknown-kind")) :=
  ⟨by decide, C2_amended ⟨false, false, false⟩ "unknown-kind" (by decide)⟩

/-- C4: for both one-shot-reset simulator adapters, the reset buffer is
uninitialized at construction, the first `reset` invokes the backend's
native reset exactly once and caches its observation, and every later
`reset` returns the cached result with zero further native resets; two
consecutive `reset` calls return identical results with exactly one
native reset across both. -/
theorem C4_oneShotReset (env2 : IG2Env) (env3 : IG3Env) :
    (IsaacGymPreview2Wrapper.init env2).resetOnce = true
  ∧ (IsaacGymPreview2Wrapper.init env2).obsBuf = none
  ∧ (let r1 := IsaacGymPreview2Wrapper.reset (IsaacGymPreview2Wrapper.init env2)
     let r2 := IsaacGymPreview2Wrapper.reset r1.1
     let r3 := IsaacGymPreview2Wrapper.reset r2.1
     r1.2.2 = 1 ∧ r1.2.1 = some env2.resetResult
       ∧ r2.2.1 = r1.2.1 ∧ r2.2.2 = 0 ∧ r1.2.2 + r2.2.2 = 1
       ∧ r3.2.1 = r1.2.1 ∧ r3.2.2 = 0)
  ∧ (IsaacGymPreview3Wrapper.init env3).resetOnce = true
  ∧ (IsaacGymPreview3Wrapper.init env3).obsDict = none
  ∧ (let s1 := IsaacGymPreview3Wrapper.reset (IsaacGymPreview3Wrapper.init env3)
     let s2 := IsaacGymPreview3Wrapper.reset s1.1
     let s3 := IsaacGymPreview3Wrapper.reset s2.1
     s1.2.2 = 1 ∧ s1.2.1 = IG3Adapter.obsOf (some env3.resetResult)
       ∧ s2.2.1 = s1.2.1 ∧ s2.2.2 = 0 ∧ s1.2.2 + s2.2.2 = 1
       ∧ s3.2.1 = s1.2.1 ∧ s3.2.2 = 0) :=
  ⟨rfl, rfl, ⟨rfl, rfl, rfl, rfl, rfl, rfl, rfl⟩,
   rfl, rfl, ⟨rfl, rfl, rfl, rfl, rfl, rfl, rfl⟩⟩

/-- C10: the adapter's `num_envs` is the backend's `num_envs` attribute
when the backend exposes one and 1 otherwise, and it is unchanged by
`reset` and `step` over the adapter's lifetime (the wrapped backend is
never replaced). -/
theorem C10_numEnvs (n : Nat) (a : IG2Adapter) (act : Tensor) :
    Wrapper.numEnvs (some n) = n
  ∧ Wrapper.numEnvs none = 1
  ∧ (IsaacGymPreview2Wrapper.reset a).1.numEnvs = a.numEnvs
  ∧ (IsaacGymPreview2Wrapper.step a act).1.numEnvs = a.numEnvs := by
  refine ⟨rfl, rfl, ?_, ?_⟩
  · by_cases h : a.resetOnce = true
    · simp [IsaacGymPreview2Wrapper.reset, h, IG2Adapter.numEnvs]
    · simp [IsaacGymPreview2Wrapper.reset, h, IG2Adapter.numEnvs]
  · rcases hs : a.env.stepFn act with ⟨o, rw2⟩
    simp [IsaacGymPreview2Wrapper.step, hs, IG2Adapter.numEnvs]

/-- C8: counterexample.  Encoding an ndarray observation under an
unsupported space kind succeeds (the ndarray fast path of the dispatch
runs before the space is ever inspected), so encoding under an
unsupported space does not always fail. -/
theorem C8_counterexample :
    GymWrapper.encode 1 (.arr ⟨.int64, [3], [0, 1, 2]⟩) (.other "MultiDiscrete")
      = .ok ⟨.float32, [1, 3], [0, 1, 2]⟩ := rfl

/-- C8 (amended): decoding an action whose space kind is not Discrete or
Box (including Dict) always fails with the ValueError naming the space's
runtime type; encoding fails with the ValueError naming the space's
runtime type exactly when the observation reaches the space dispatch
(a dict-structured observation) — plain-int and ndarray observations
take value-type fast paths that never consult the space — and the error
raised inside a nested Dict field propagates to the caller unmodified. -/
theorem C8_amended (numEnvs : Nat) (t : String) (f g : ObsFields)
    (fields : SpaceFields) (acts : Tensor) :
    GymWrapper.tensorToAction (.other t) acts = .error (.unsupportedActionSpace t)
  ∧ GymWrapper.tensorToAction (.dict fields) acts = .error (.unsupportedActionSpace "Dict")
  ∧ GymWrapper.encode numEnvs (.dict f) (.other t) = .error (.unsupportedObservationSpace t)
  ∧ GymWrapper.encode numEnvs (.dict (ObsFields.cons "a" (.dict g) .nil))
      (.dict (SpaceFields.cons "a" (.other t) .nil))
      = .error (.unsupportedObservationSpace t)
  ∧ PettingZooWrapper.tensorToAction acts (.other t) = .error (.unsupportedActionSpace t)
  ∧ PettingZooWrapper.tensorToAction acts (.dict fields) = .error (.unsupportedActionSpace "Dict")
  ∧ PettingZooWrapper.encode numEnvs (.dict f) (.other t)
      = .error (.unsupportedObservationSpace t) :=
  ⟨rfl, rfl, rfl, rfl, rfl, rfl, rfl⟩

/-- C5: evaluation at the failing configuration.  The torch adapter
encodes a `Dict{"b": Box(3,), "a": Box(2,)}` observation with agent
fields inserted in the order `b`, `a` by placing `a`'s features before
`b`'s (alphabetic traversal) and reshaping to `(num_envs, -1)`; the jax
adapter, on the same input, crashes with a TypeError because its Dict
branch calls numpy's dtype-reinterpreting `ndarray.view(num_envs, -1)`
instead of `reshape`. -/
theorem C5_dictOrderEvaluation :
    GymWrapper.encode 1
      (.dict (.cons "b" (.arr ⟨.float32, [3], [20, 21, 22]⟩)
              (.cons "a" (.arr ⟨.float32, [2], [10, 11]⟩) .nil)))
      (.dict (.cons "b" (.box [0, 0, 0] [9, 9, 9] [3] .float32)
              (.cons "a" (.box [0, 0] [9, 9] [2] .float32) .nil)))
      = .ok ⟨.float32, [1, 5], [10, 11, 20, 21, 22]⟩
  ∧ PettingZooWrapper.encode 1
      (.dict (.cons "b" (.arr ⟨.float32, [3], [20, 21, 22]⟩)
              (.cons "a" (.arr ⟨.float32, [2], [10, 11]⟩) .nil)))
      (.dict (.cons "b" (.box [0, 0, 0] [9, 9, 9] [3] .float32)
              (.cons "a" (.box [0, 0] [9, 9] [2] .float32) .nil)))
      = .error .typeError :=
  ⟨rfl, rfl⟩

/-- C7: evaluation at the failing configuration.  The torch adapter maps
a batched Box observation (`num_envs = 4`, 3 features) to a float32
tensor of shape `(4, 3)` regardless of the declared float64 dtype, and a
Discrete int observation to shape `(1, 1)`; the jax adapter handles the
ndarray Box case identically but crashes with a TypeError on a plain-int
Discrete observation, because its int branch calls numpy's
dtype-reinterpreting `ndarray.view(num_envs, -1)`. -/
theorem C7_shapeEvaluation :
    GymWrapper.encode 4
      (.arr ⟨.float64, [4, 3], [0, 1, 2, 3, 4, 5, 6, 7, 8, 9, 10, 11]⟩)
      (.box [] [] [3] .float64)
      = .ok ⟨.float32, [4, 3], [0, 1, 2, 3, 4, 5, 6, 7, 8, 9, 10, 11]⟩
  ∧ GymWrapper.encode 1 (.int 2) (.discrete 5) = .ok ⟨.int64, [1, 1], [2]⟩
  ∧ PettingZooWrapper.encode 4
      (.arr ⟨.float64, [4, 3], [0, 1, 2, 3, 4, 5, 6, 7, 8, 9, 10, 11]⟩)
      (.box [] [] [3] .float64)
      = .ok ⟨.float32, [4, 3], [0, 1, 2, 3, 4, 5, 6, 7, 8, 9, 10, 11]⟩
  ∧ PettingZooWrapper.encode 1 (.int 2) (.discrete 5) = .error .typeError :=
  ⟨rfl, rfl, rfl, rfl⟩

/-- C6: codec round trip on the torch adapter (single environment).  For a
value sampled from a Discrete space (a plain integer scalar) or from a
Box space (an array with the space's declared dtype and shape), decoding
the encoding through the same space reconstructs the original value: the
Discrete case yields the original plain integer scalar and the Box case
yields an array with the space's declared dtype and shape holding the
original elements (exact in this model, where float casts are
value-preserving). -/
theorem C6_roundTrip (count : Nat) (v : ℤ) (_hv : 0 ≤ v ∧ v < (count : ℤ))
    (low high : List ℚ) (shape : List Nat) (dtype : Dtype) (a : NDArray)
    (ha : a.dtype = dtype ∧ a.shape = shape ∧ a.data.length = shape.prod)
    (hfix : ∀ x ∈ a.data, dtype.castElem x = x) :
    (∃ t, GymWrapper.encode 1 (.int v) (.discrete count) = .ok t
        ∧ GymWrapper.tensorToAction (.discrete count) t = .ok (.intScalar v))
  ∧ (∃ t, GymWrapper.encode 1 (.arr a) (.box low high shape dtype) = .ok t
        ∧ GymWrapper.tensorToAction (.box low high shape dtype) t = .ok (.arrv a)) := by
  obtain ⟨hd, hs, hl⟩ := ha
  constructor
  · refine ⟨⟨.int64, [1, 1], [(v : ℚ)]⟩, ?_, ?_⟩
    · have h1 : GymWrapper.encode 1 (.int v) (.discrete count)
          = torchView2 1 (torchTensorOfInt v) := rfl
      rw [h1]
      simp [torchView2, torchTensorOfInt]
    · simp [GymWrapper.tensorToAction, NDArray.itemScalar, Dtype.isIntLike, truncQ_intCast]
  · have hcast : a.data.map (Dtype.castElem .float32) = a.data :=
      listMapSelf _ a.data (fun x _ => by simp [Dtype.castElem, Dtype.isIntLike])
    refine ⟨⟨.float32, [1, a.data.length], a.data⟩, ?_, ?_⟩
    · have h2 : GymWrapper.encode 1 (.arr a) (.box low high shape dtype)
          = torchView2 1 (torchTensorOfArr .float32 a) := rfl
      rw [h2]
      simp [torchView2, torchTensorOfArr, hcast, Nat.mod_one, Nat.div_one]
    · have hcast2 : a.data.map dtype.castElem = a.data := listMapSelf _ a.data hfix
      obtain ⟨ad, ash, adata⟩ := a
      dsimp only at hd hs hl hcast2
      subst hd; subst hs
      simp [GymWrapper.tensorToAction, hl, hcast2]

/-- C6 witness: the round trip at concrete inputs (Discrete(3) with value
1; Box(shape=(2,), dtype=float64) with data [3, 5]). -/
theorem C6_roundTrip_witness :
    ((0 ≤ (1 : ℤ) ∧ (1 : ℤ) < ((3 : Nat) : ℤ))
      ∧ ((⟨.float64, [2], [3, 5]⟩ : NDArray).dtype = .float64
          ∧ (⟨.float64, [2], [3, 5]⟩ : NDArray).shape = [2]
          ∧ (⟨.float64, [2], [3, 5]⟩ : NDArray).data.length = ([2] : List Nat).prod)
      ∧ (∀ x ∈ (⟨.float64, [2], [3, 5]⟩ : NDArray).data, Dtype.castElem .float64 x = x))
    ∧ ((∃ t, GymWrapper.encode 1 (.int 1) (.discrete 3) = .ok t
          ∧ GymWrapper.tensorToAction (.discrete 3) t = .ok (.intScalar 1))
      ∧ (∃ t, GymWrapper.encode 1 (.arr ⟨.float64, [2], [3, 5]⟩)
              (.box [0, 0] [9, 9] [2] .float64) = .ok t
          ∧ GymWrapper.tensorToAction (.box [0, 0] [9, 9] [2] .float64) t
              = .ok (.arrv ⟨.float64, [2], [3, 5]⟩))) :=
  ⟨⟨by decide, ⟨rfl, rfl, rfl⟩, by decide⟩,
   C6_roundTrip 3 1 (by decide) [0, 0] [9, 9] [2] .float64 ⟨.float64, [2], [3, 5]⟩
     ⟨rfl, rfl, rfl⟩ (by decide)⟩

/-- C1: counterexample.  Constructing the multi-agent adapter over a
backend whose agents have structurally different observation spaces
(agent `A`: Box shape `(3,)`, agent `B`: Box shape `(5,)`) succeeds —
no heterogeneity check runs at construction, and no
heterogeneous-agent-space error exists in the code. -/
theorem C1_counterexample :
    envHet.observationSpacesAttr.lookup "A" ≠ envHet.observationSpacesAttr.lookup "B"
  ∧ PettingZooWrapper.init envHet
      = .ok ⟨envHet, ["A", "B"],
             .box [0, 0, 0, 0, 0, 0] [1, 1, 1, 1, 1, 1] [2, 3] .float32, 1⟩ :=
  ⟨by decide, rfl⟩

/-- C1 (amended): construction never validates heterogeneity.  Whenever
the first entry of the backend's `observation_spaces` mapping is a Box
and there is at least one possible agent, construction succeeds — whatever
the remaining agents' spaces are — and the shared observation space is
built solely from that first space, its shape prefixed by the
possible-agent count.  A shape mismatch between agents surfaces only
later, when `step`/`reset` stacks the per-agent observations. -/
theorem C1_amended (env : PZEnv) (k : String) (low high : List ℚ)
    (shape : List Nat) (dtype : Dtype) (rest : List (String × Space))
    (hobs : env.observationSpacesAttr = (k, .box low high shape dtype) :: rest)
    (hagents : env.possibleAgents ≠ []) :
    PettingZooWrapper.init env
      = .ok ⟨env, env.possibleAgents,
             .box ((List.replicate env.possibleAgents.length low).flatten)
                  ((List.replicate env.possibleAgents.length high).flatten)
                  (env.possibleAgents.length :: shape) dtype,
             Wrapper.numEnvs env.numEnvsAttr⟩ := by
  have hempty : env.possibleAgents.isEmpty = false := by
    cases h : env.possibleAgents with
    | nil => exact absurd h hagents
    | cons x xs => simp [List.isEmpty]
  simp [PettingZooWrapper.init, PettingZooWrapper.computeSharedObservationSpace,
        hobs, hempty]

/-- C1 witness: the amended statement at the concrete heterogeneous
backend `envHet`. -/
theorem C1_amended_witness :
    (envHet.observationSpacesAttr
        = ("A", .box [0, 0, 0] [1, 1, 1] [3] .float32)
            :: [("B", .box [0, 0, 0, 0, 0] [1, 1, 1, 1, 1] [5] .float32)]
      ∧ envHet.possibleAgents ≠ [])
    ∧ PettingZooWrapper.init envHet
        = .ok ⟨envHet, envHet.possibleAgents,
               .box ((List.replicate envHet.possibleAgents.length [0, 0, 0]).flatten)
                    ((List.replicate envHet.possibleAgents.length [1, 1, 1]).flatten)
                    (envHet.possibleAgents.length :: [3]) .float32,
               Wrapper.numEnvs envHet.numEnvsAttr⟩ :=
  ⟨⟨rfl, by decide⟩,
   C1_amended envHet "A" [0, 0, 0] [1, 1, 1] [3] .float32
     [("B", .box [0, 0, 0, 0, 0] [1, 1, 1, 1, 1] [5] .float32)] rfl (by decide)⟩

theorem gatherAgentObs_missing (observations : List (String × Obs)) :
    ∀ agents : List String, (∃ uid ∈ agents, observations.lookup uid = none) →
      ∃ u ∈ agents, gatherAgentObs observations agents = .error (.keyError u) := by
  intro agents h
  induction agents with
  | nil => rcases h with ⟨u, hu, _⟩; cases hu
  | cons a rest ih =>
      cases hx : observations.lookup a with
      | none =>
          exact ⟨a, by simp, by simp [gatherAgentObs, lookupE, hx]⟩
      | some v =>
          rcases h with ⟨u, hu, hlu⟩
          have hur : u ∈ rest := by
            rcases List.mem_cons.mp hu with h1 | h1
            · subst h1; rw [hx] at hlu; cases hlu
            · exact h1
          obtain ⟨u2, hu2, hg⟩ := ih ⟨u, hur, hlu⟩
          exact ⟨u2, by simp [hu2], by simp [gatherAgentObs, lookupE, hx, hg]⟩

/-- C9: every `step` and `reset` of the multi-agent adapter requires the
backend's observation mapping to contain an entry for every possible
agent: if any possible agent is absent, the shared-observation indexing
loop raises a KeyError (for one of the possible agents) and the call
returns no result. -/
theorem C9_missingAgentFails (w : PZWrapper) :
    (∀ actions decoded,
        PettingZooWrapper.decodeActions w.env actions = .ok decoded →
        (∃ uid ∈ w.possibleAgents,
            ((w.env.stepFn decoded).observations.lookup uid) = none) →
        ∃ u ∈ w.possibleAgents,
          PettingZooWrapper.step w actions = .error (.keyError u))
  ∧ ((∃ uid ∈ w.possibleAgents, (w.env.resetRawObservations.lookup uid) = none) →
      ∃ u ∈ w.possibleAgents,
        PettingZooWrapper.reset w = .error (.keyError u)) := by
  constructor
  · intro actions decoded hdec hmiss
    obtain ⟨u, hu, hg⟩ :=
      gatherAgentObs_missing (w.env.stepFn decoded).observations w.possibleAgents hmiss
    refine ⟨u, hu, ?_⟩
    simp [PettingZooWrapper.step, hdec, PettingZooWrapper.buildShared, hg]
  · intro hmiss
    obtain ⟨u, hu, hg⟩ :=
      gatherAgentObs_missing w.env.resetRawObservations w.possibleAgents hmiss
    refine ⟨u, hu, ?_⟩
    simp [PettingZooWrapper.reset, PettingZooWrapper.buildShared, hg]

/-- C9 witness: at the concrete backend `envMiss` (possible agents
`A`, `B`; only `A` reported), both `step` and `reset` fail with a
KeyError for a possible agent. -/
theorem C9_missingAgentFails_witness :
    (PettingZooWrapper.decodeActions wMiss.env [] = .ok []
      ∧ (∃ uid ∈ wMiss.possibleAgents,
          ((wMiss.env.stepFn []).observations.lookup uid) = none)
      ∧ ∃ u ∈ wMiss.possibleAgents,
          PettingZooWrapper.step wMiss [] = .error (.keyError u))
  ∧ ((∃ uid ∈ wMiss.possibleAgents, (wMiss.env.resetRawObservations.lookup uid) = none)
      ∧ ∃ u ∈ wMiss.possibleAgents,
          PettingZooWrapper.reset wMiss = .error (.keyError u)) :=
  ⟨⟨rfl, ⟨"B", by decide, by decide⟩,
    (C9_missingAgentFails wMiss).1 [] [] rfl ⟨"B", by decide, by decide⟩⟩,
   ⟨⟨"B", by decide, by decide⟩,
    (C9_missingAgentFails wMiss).2 ⟨"B", by decide, by decide⟩⟩⟩

/-- C3: whenever a `step` or `reset` of the multi-agent adapter returns
a result, the returned info mapping contains a `"shared_states"` entry
keyed by every possible agent identifier (exactly the `possible_agents`
list, whether or not each agent was active this step). -/
theorem C3_sharedStatesComplete (w : PZWrapper) (actions : List (String × Tensor)) :
    ((PettingZooWrapper.step w actions).isOkB = true →
      ∃ r m, PettingZooWrapper.step w actions = .ok r
        ∧ r.infos.lookup "shared_states" = some (InfoVal.sharedStates m)
        ∧ m.map Prod.fst = w.possibleAgents)
  ∧ ((PettingZooWrapper.reset w).isOkB = true →
      ∃ p m, PettingZooWrapper.reset w = .ok p
        ∧ p.2.lookup "shared_states" = some (InfoVal.sharedStates m)
        ∧ m.map Prod.fst = w.possibleAgents) := by
  constructor
  · intro hok
    cases hstep : PettingZooWrapper.step w actions with
    | error e => rw [hstep] at hok; simp [Except.isOkB] at hok
    | ok r =>
      unfold PettingZooWrapper.step at hstep
      cases hdec : PettingZooWrapper.decodeActions w.env actions with
      | error e => rw [hdec] at hstep; simp at hstep
      | ok decoded =>
        rw [hdec] at hstep
        simp only [exceptBind_ok] at hstep
        cases hsh : PettingZooWrapper.buildShared w (w.env.stepFn decoded).observations with
        | error e => rw [hsh] at hstep; simp at hstep
        | ok shared =>
          rw [hsh] at hstep
          simp only [exceptBind_ok] at hstep
          cases hobs : PettingZooWrapper.convertObservations w
              (w.env.stepFn decoded).observations with
          | error e => rw [hobs] at hstep; simp at hstep
          | ok obs2 =>
            rw [hobs] at hstep
            simp only [exceptBind_ok] at hstep
            cases hrew : PettingZooWrapper.convertRewards w (w.env.stepFn decoded).rewards with
            | error e => rw [hrew] at hstep; simp at hstep
            | ok rew2 =>
              rw [hrew] at hstep
              simp only [exceptBind_ok] at hstep
              cases hterm : PettingZooWrapper.convertFlags w
                  (w.env.stepFn decoded).terminated with
              | error e => rw [hterm] at hstep; simp at hstep
              | ok term2 =>
                rw [hterm] at hstep
                simp only [exceptBind_ok] at hstep
                cases htr : PettingZooWrapper.convertFlags w
                    (w.env.stepFn decoded).truncated with
                | error e => rw [htr] at hstep; simp at hstep
                | ok trunc2 =>
                  rw [htr] at hstep
                  simp only [exceptBind_ok, Except.ok.injEq] at hstep
                  refine ⟨r, w.possibleAgents.map (fun uid => (uid, shared)),
                          rfl, ?_, ?_⟩
                  · rw [← hstep]
                    exact lookup_setKey _ _ _
                  · have hcomp : (Prod.fst ∘ fun uid : String => (uid, shared)) = id := rfl
                    simp only [List.map_map, hcomp, List.map_id]
  · intro hok
    cases hreset : PettingZooWrapper.reset w with
    | error e => rw [hreset] at hok; simp [Except.isOkB] at hok
    | ok p =>
      unfold PettingZooWrapper.reset at hreset
      simp only [PZEnv.resetRawObservations] at hreset
      cases hrf : w.env.resetFn with
      | obsOnly obs =>
        rw [hrf] at hreset
        simp only [] at hreset
        cases hsh : PettingZooWrapper.buildShared w obs with
        | error e => rw [hsh] at hreset; simp at hreset
        | ok shared =>
          rw [hsh] at hreset
          simp only [exceptBind_ok] at hreset
          cases hobs : PettingZooWrapper.convertObservations w obs with
          | error e => rw [hobs] at hreset; simp at hreset
          | ok obs2 =>
            rw [hobs] at hreset
            simp only [exceptBind_ok, Except.ok.injEq] at hreset
            refine ⟨p, w.possibleAgents.map (fun uid => (uid, shared)),
                    rfl, ?_, ?_⟩
            · rw [← hreset]
              exact lookup_setKey _ _ _
            · have hcomp : (Prod.fst ∘ fun uid : String => (uid, shared)) = id := rfl
              simp only [List.map_map, hcomp, List.map_id]
      | withInfos obs infos0 =>
        rw [hrf] at hreset
        simp only [] at hreset
        cases hsh : PettingZooWrapper.buildShared w obs with
        | error e => rw [hsh] at hreset; simp at hreset
        | ok shared =>
          rw [hsh] at hreset
          simp only [exceptBind_ok] at hreset
          cases hobs : PettingZooWrapper.convertObservations w obs with
          | error e => rw [hobs] at hreset; simp at hreset
          | ok obs2 =>
            rw [hobs] at hreset
            simp only [exceptBind_ok, Except.ok.injEq] at hreset
            refine ⟨p, w.possibleAgents.map (fun uid => (uid, shared)),
                    rfl, ?_, ?_⟩
            · rw [← hreset]
              exact lookup_setKey _ _ _
            · have hcomp : (Prod.fst ∘ fun uid : String => (uid, shared)) = id := rfl
              simp only [List.map_map, hcomp, List.map_id]

/-- C3 witness: at the concrete homogeneous backend `envDuo`, a `step`
and a `reset` both succeed and the shared-states completeness holds. -/
theorem C3_sharedStatesComplete_witness :
    ((PettingZooWrapper.step wDuo []).isOkB = true
      ∧ ∃ r m, PettingZooWrapper.step wDuo [] = .ok r
          ∧ r.infos.lookup "shared_states" = some (InfoVal.sharedStates m)
          ∧ m.map Prod.fst = wDuo.possibleAgents)
  ∧ ((PettingZooWrapper.reset wDuo).isOkB = true
      ∧ ∃ p m, PettingZooWrapper.reset wDuo = .ok p
          ∧ p.2.lookup "shared_states" = some (InfoVal.sharedStates m)
          ∧ m.map Prod.fst = wDuo.possibleAgents) :=
  ⟨⟨rfl, (C3_sharedStatesComplete wDuo []).1 rfl⟩,
   ⟨rfl, (C3_sharedStatesComplete wDuo []).2 rfl⟩⟩
